import Mathlib

/-!
Verification development for the OrderBy operator of velox
(src/velox/exec/OrderBy.cpp).

The operator adapts a sort/spill engine (SortBuffer) to a pipeline
push/pull/reclaim protocol.  The file embeds the operator's control logic
shallowly: machine state is an explicit record, fallible paths return
`Except VeloxError`, and the `VELOX_CHECK` fatal-assertion macro is
embedded as an `Except.error (VeloxError.checkFailed msg)` outcome.
The SortBuffer engine and the Operator base class are not part of the
given sources; their definitions below are modelled from the spec and
marked as such.
-/

/-- A velox failure outcome.  `checkFailed msg` embeds a VELOX_CHECK
fatal assertion firing with message `msg`; `nullEngine` embeds a
dereference of the engine pointer (`sortBuffer_`) after it has been
reset, which in the C++ source is an invalid (undefined-behaviour)
access rather than a recoverable error. -/
inductive VeloxError where
  | checkFailed (msg : String)
  | nullEngine

/-- The one field of memory::MemoryReclaimer::Stats that OrderBy::reclaim
touches (src line 90). -/
structure ReclaimStats where
  numNonReclaimableAttempts : Nat

/-- Modelled from the spec: the external memory pool collaborator.  The
spec requires usage tracking, current/reserved byte queries and release
of excess reservation; only those surface here. -/
structure MemoryPool where
  trackUsage : Bool
  currentBytes : Nat
  reservedBytes : Nat

/-- Modelled from the spec: `pool()->release()` releases any memory
reservation held in excess of the operator's minimum footprint (its
current usage) back to the pool. -/
def MemoryPool.release (p : MemoryPool) : MemoryPool :=
  { p with reservedBytes := min p.reservedBytes p.currentBytes }

/-- A row is a list of nullable integer cells, indexed by column channel. -/
abbrev Row : Type := List (Option Int)

/-- An output/input batch: a list of rows. -/
abbrev Batch : Type := List Row

/-- CompareFlags::NullHandlingMode as used by the operator (src line 29). -/
inductive NullHandlingMode where
  | NoStop
  | StopAtNull

/-- Per-key comparison configuration, mirroring velox CompareFlags in the
positional order of the initializer at src lines 25-29: null placement,
ascending, equality-only, null-handling mode. -/
structure CompareFlags where
  nullsFirst : Bool
  ascending : Bool
  equalsOnly : Bool
  nullHandlingMode : NullHandlingMode

/-- core::SortOrder: a logical sort order (accessors isAscending and
isNullsFirst). -/
structure SortOrder where
  ascending : Bool
  nullsFirst : Bool

/-- Embeds fromSortOrderToCompareFlags (src lines 24-30): the brace
initializer lists nullsFirst, ascending, equalsOnly = false and
NullHandlingMode::NoStop in that order. -/
def fromSortOrderToCompareFlags (sortOrder : SortOrder) : CompareFlags :=
  { nullsFirst := sortOrder.nullsFirst
    ascending := sortOrder.ascending
    equalsOnly := false
    nullHandlingMode := NullHandlingMode.NoStop }

/-- The result of exprToChannel on a sorting-key expression: either a
real column channel or the kConstantChannel sentinel. -/
inductive ResolvedChannel where
  | column (idx : Nat)
  | constant

/-- The slice of core::OrderByNode the constructor consumes: resolved
sorting-key channels, the matching sort orders, and spill eligibility
(canSpill under the query configuration). -/
structure OrderByNode where
  sortingKeys : List ResolvedChannel
  sortingOrders : List SortOrder
  canSpill : Bool

/-- Modelled from the spec: comparison of two nullable cells under one
key's CompareFlags (null placement per nullsFirst, direction per
ascending). -/
def compareValue (f : CompareFlags) (a b : Option Int) : Ordering :=
  match a, b with
  | none, none => Ordering.eq
  | none, some _ => if f.nullsFirst then Ordering.lt else Ordering.gt
  | some _, none => if f.nullsFirst then Ordering.gt else Ordering.lt
  | some x, some y =>
      if f.ascending then compare x y else (compare x y).swap

/-- Modelled from the spec: rows compare key by key, left to right, with
short-circuit on the first non-equal key. -/
def compareRows (keys : List (Nat × CompareFlags)) (a b : Row) : Ordering :=
  match keys with
  | [] => Ordering.eq
  | (i, f) :: rest =>
      match compareValue f (List.getD a i none) (List.getD b i none) with
      | Ordering.eq => compareRows rest a b
      | o => o

/-- Row order as a boolean: a precedes-or-ties b. -/
def rowLE (keys : List (Nat × CompareFlags)) (a b : Row) : Bool :=
  compareRows keys a b ≠ Ordering.gt

/-- Stable insertion of a row into a sorted list. -/
def insertRow (le : Row → Row → Bool) (x : Row) : List Row → List Row
  | [] => [x]
  | y :: ys => if le x y then x :: y :: ys else y :: insertRow le x ys

/-- Stable insertion sort over rows. -/
def sortRowsBy (le : Row → Row → Bool) : List Row → List Row
  | [] => []
  | x :: xs => insertRow le x (sortRowsBy le xs)

/-- Modelled from the spec: the SortBuffer engine state.  The engine
accumulates resident rows, may externalize sorted runs on spill, and
after finalize holds the merged ordered output residue from which
batches of `batchRows` rows are produced until exhausted. -/
structure SortBuffer where
  keys : List (Nat × CompareFlags)
  batchRows : Nat
  spillThreshold : Nat
  residentRows : List Row
  spilledRuns : List (List Row)
  outputRows : List Row
  finalized : Bool
  numSpillRuns : Nat

/-- Modelled from the spec: SortBuffer::addInput appends the batch's rows
to the resident set (inline spill is permitted but not required by the
contract, so the model does not spill here). -/
def SortBuffer.addInput (sb : SortBuffer) (b : Batch) : SortBuffer :=
  { sb with residentRows := sb.residentRows ++ b }

/-- Modelled from the spec: SortBuffer::spill stable-sorts the currently
resident rows by the key spec, writes them as one new externalized run,
releases their memory, and increments the spill-run counter; spilling
with no resident rows writes no run.  `targetBytes` is only a hint and
does not change what is spilled (spilling is at run granularity). -/
def SortBuffer.spill (sb : SortBuffer) (targetRows targetBytes : Nat) : SortBuffer :=
  match sb.residentRows with
  | [] => sb
  | rows =>
      { sb with
          residentRows := []
          spilledRuns := sb.spilledRuns ++ [sortRowsBy (rowLE sb.keys) rows]
          numSpillRuns := sb.numSpillRuns + 1 }

/-- Modelled from the spec: SortBuffer::noMoreInput merges all
externalized runs with the sorted in-memory residue into the ordered
output sequence and prepares to produce output. -/
def SortBuffer.finalize (sb : SortBuffer) : SortBuffer :=
  { sb with
      outputRows := sortRowsBy (rowLE sb.keys) (sb.spilledRuns.flatten ++ sb.residentRows)
      residentRows := []
      spilledRuns := []
      finalized := true }

/-- Modelled from the spec: SortBuffer::getOutput yields the next batch
of at most `batchRows` rows, or none once exhausted. -/
def SortBuffer.getOutput (sb : SortBuffer) : Option Batch × SortBuffer :=
  match sb.outputRows with
  | [] => (none, sb)
  | rows => (some (rows.take sb.batchRows), { sb with outputRows := rows.drop sb.batchRows })

/-- Observable side effects of an operator call, used to state which
collaborators a call touches. -/
inductive Effect where
  | engineSpill (targetRows targetBytes : Nat)
  | poolRelease
  | logWarning
  | engineGetOutput

/-- The OrderBy operator state: the owned engine (none once abort has
reset it), the memory pool, spill eligibility fixed at construction, and
the lifecycle flags noMoreInput_, finished_, nonReclaimableSection_. -/
structure OrderByState where
  sortBuffer : Option SortBuffer
  pool : MemoryPool
  canSpill : Bool
  noMoreInput : Bool
  finished : Bool
  nonReclaimableSection : Bool
  aborted : Bool

/-- Modelled from the spec: Operator::canReclaim of the base class holds
exactly when the operator was constructed spill-eligible (a spill
configuration is present). -/
def OrderByState.canReclaim (s : OrderByState) : Bool :=
  s.canSpill

/-- Message of the VELOX_CHECK at src line 46 (the stringified
condition). -/
def trackUsageMsg : String := "pool()->trackUsage()"

/-- Message of the VELOX_CHECK at src lines 54-56 (the source message,
with the contraction expanded). -/
def constantKeyMsg : String := "OrderBy does not allow constant sorting keys"

/-- Message of the VELOX_CHECK at src line 82. -/
def canReclaimMsg : String := "canReclaim()"

/-- Message of the VELOX_CHECK at src line 83. -/
def nonReclaimableMsg : String := "!nonReclaimableSection_"

/-- Message standing for the out-of-bounds access
sortingOrders()[i] with i beyond the orders list; in C++ this is
undefined behaviour, and the plan node guarantees the two lists have
equal size so the case is unreachable in a well-formed plan. -/
def ordersOutOfBoundsMsg : String := "sortingOrders()[i] out of bounds"

/-- Embeds the key-resolution loop of the constructor (src lines 51-60):
for each sorting key in order, fail the VELOX_CHECK if its channel is
the constant sentinel, otherwise record the channel together with the
CompareFlags derived from the matching sort order. -/
def resolveSortingKeys :
    List ResolvedChannel → List SortOrder → Except VeloxError (List (Nat × CompareFlags))
  | [], _ => Except.ok []
  | ResolvedChannel.constant :: _, _ => Except.error (VeloxError.checkFailed constantKeyMsg)
  | ResolvedChannel.column i :: ks, o :: os =>
      match resolveSortingKeys ks os with
      | Except.error e => Except.error e
      | Except.ok rest => Except.ok ((i, fromSortOrderToCompareFlags o) :: rest)
  | ResolvedChannel.column _ :: _, [] => Except.error (VeloxError.checkFailed ordersOutOfBoundsMsg)

/-- Embeds OrderBy::OrderBy (src lines 33-73): check the pool tracks
usage, resolve every sorting key (rejecting constant channels), then
construct the SortBuffer engine with the resolved keys, the target
output batch row count, and the spill memory threshold from the query
configuration. -/
def OrderBy.construct (pool : MemoryPool) (node : OrderByNode)
    (outputBatchRows spillMemoryThreshold : Nat) : Except VeloxError OrderByState :=
  if pool.trackUsage then
    match resolveSortingKeys node.sortingKeys node.sortingOrders with
    | Except.error e => Except.error e
    | Except.ok keys =>
        Except.ok
          { sortBuffer := some
              { keys := keys
                batchRows := outputBatchRows
                spillThreshold := spillMemoryThreshold
                residentRows := []
                spilledRuns := []
                outputRows := []
                finalized := false
                numSpillRuns := 0 }
            pool := pool
            canSpill := node.canSpill
            noMoreInput := false
            finished := false
            nonReclaimableSection := false
            aborted := false }
  else Except.error (VeloxError.checkFailed trackUsageMsg)

/-- Embeds OrderBy::addInput (src lines 75-77): forwards the batch to
the engine unchanged; dereferences the engine pointer. -/
def OrderBy.addInput (s : OrderByState) (b : Batch) : Except VeloxError OrderByState :=
  match s.sortBuffer with
  | none => Except.error VeloxError.nullEngine
  | some sb => Except.ok { s with sortBuffer := some (sb.addInput b) }

/-- Embeds OrderBy::noMoreInput (src lines 106-111): the base class sets
noMoreInput_, then the engine is told to finalize (spill statistics
recording is telemetry and carries no state here). -/
def OrderBy.noMoreInput (s : OrderByState) : Except VeloxError OrderByState :=
  match s.sortBuffer with
  | none => Except.error VeloxError.nullEngine
  | some sb => Except.ok { s with noMoreInput := true, sortBuffer := some sb.finalize }

/-- Embeds OrderBy::reclaim (src lines 79-104): VELOX_CHECK canReclaim()
and !nonReclaimableSection_; if noMoreInput_ is set, increment the
non-reclaimable-attempt counter, log a warning and return with the
engine untouched; otherwise instruct the engine to spill with
targetBytes as a hint and release excess pool reservation. -/
def OrderBy.reclaim (s : OrderByState) (targetBytes : Nat) (stats : ReclaimStats) :
    Except VeloxError (OrderByState × ReclaimStats × List Effect) :=
  if !s.canReclaim then Except.error (VeloxError.checkFailed canReclaimMsg)
  else if s.nonReclaimableSection then Except.error (VeloxError.checkFailed nonReclaimableMsg)
  else if s.noMoreInput then
    Except.ok
      (s,
       { stats with numNonReclaimableAttempts := stats.numNonReclaimableAttempts + 1 },
       [Effect.logWarning])
  else
    match s.sortBuffer with
    | none => Except.error VeloxError.nullEngine
    | some sb =>
        Except.ok
          ({ s with sortBuffer := some (sb.spill 0 targetBytes), pool := s.pool.release },
           stats,
           [Effect.engineSpill 0 targetBytes, Effect.poolRelease])

/-- Embeds OrderBy::getOutput (src lines 113-121): if finished_ or input
is still open, return the null batch without touching the engine;
otherwise pull one batch from the engine and mark finished_ when the
engine signals end of stream. -/
def OrderBy.getOutput (s : OrderByState) :
    Except VeloxError (Option Batch × OrderByState × List Effect) :=
  if s.finished || !s.noMoreInput then Except.ok (none, s, [])
  else
    match s.sortBuffer with
    | none => Except.error VeloxError.nullEngine
    | some sb =>
        let r := sb.getOutput
        Except.ok (r.1, { s with sortBuffer := some r.2, finished := r.1.isNone },
          [Effect.engineGetOutput])

/-- Embeds OrderBy::abort (src lines 123-126): the base class abort runs
(modelled from the spec as marking the operator aborted) and the engine
is reset, releasing it and every resource it holds; the function is
total, so the call cannot throw. -/
def OrderBy.abort (s : OrderByState) : OrderByState :=
  { s with aborted := true, sortBuffer := none }

/-- The sequence of results of n successive getOutput calls, threading
the state; an error stops the sequence. -/
def OrderBy.outputSeq : Nat → OrderByState → List (Option Batch) × OrderByState
  | 0, s => ([], s)
  | Nat.succ n, s =>
      match OrderBy.getOutput s with
      | Except.ok (b, s2, _) =>
          match OrderBy.outputSeq n s2 with
          | (rest, sF) => (b :: rest, sF)
      | Except.error _ => ([], s)

/-! Concrete sample states used by witnesses and counterexamples. -/

/-- A concrete memory pool with usage tracking enabled. -/
def samplePool : MemoryPool :=
  { trackUsage := true, currentBytes := 4, reservedBytes := 10 }

/-- A concrete memory pool with usage tracking disabled. -/
def sampleBadPool : MemoryPool :=
  { trackUsage := false, currentBytes := 0, reservedBytes := 0 }

/-- A concrete plan node: one ascending nulls-first key on channel 0,
spill-eligible. -/
def sampleNode : OrderByNode :=
  { sortingKeys := [ResolvedChannel.column 0]
    sortingOrders := [{ ascending := true, nullsFirst := true }]
    canSpill := true }

/-- A concrete plan node whose single sorting key resolves to the
constant-channel sentinel. -/
def sampleConstNode : OrderByNode :=
  { sortingKeys := [ResolvedChannel.constant]
    sortingOrders := [{ ascending := true, nullsFirst := true }]
    canSpill := true }

/-- The operator state OrderBy.construct produces from samplePool and
sampleNode with batch rows 2 and threshold 16. -/
def sampleConstructed : OrderByState :=
  { sortBuffer := some
      { keys := [(0, fromSortOrderToCompareFlags { ascending := true, nullsFirst := true })]
        batchRows := 2
        spillThreshold := 16
        residentRows := []
        spilledRuns := []
        outputRows := []
        finalized := false
        numSpillRuns := 0 }
    pool := samplePool
    canSpill := true
    noMoreInput := false
    finished := false
    nonReclaimableSection := false
    aborted := false }

/-- A concrete engine holding two resident rows. -/
def sampleBuffer : SortBuffer :=
  { keys := [(0, fromSortOrderToCompareFlags { ascending := true, nullsFirst := true })]
    batchRows := 2
    spillThreshold := 16
    residentRows := [[some 3], [some 1]]
    spilledRuns := []
    outputRows := []
    finalized := false
    numSpillRuns := 0 }

/-- A concrete operator still in the input phase, holding sampleBuffer. -/
def sampleInputPhase : OrderByState :=
  { sampleConstructed with sortBuffer := some sampleBuffer }

/-- The same operator after noMoreInput has been signaled. -/
def sampleAfterInput : OrderByState :=
  { sampleInputPhase with noMoreInput := true }

/-- The same operator after it has delivered all output. -/
def sampleFinished : OrderByState :=
  { sampleAfterInput with finished := true }

/-! Theorems settling the claims. -/

/-- C1: reclaim(targetBytes) is honored only while the operator is still
in the input phase.  When honored (noMoreInput not yet signaled), the
operator instructs the engine to spill with targetBytes as a hint and
then releases excess pool reservation; when not honored, the call leaves
the operator state untouched, increments the non-reclaimable-attempt
counter, logs a diagnostic and returns, so every subsequent output
sequence equals the no-reclaim one. -/
theorem orderBy_reclaim_phase_policy (s : OrderByState) (sb : SortBuffer)
    (targetBytes : Nat) (stats : ReclaimStats)
    (h1 : s.canReclaim = true) (h2 : s.nonReclaimableSection = false)
    (h3 : s.sortBuffer = some sb) :
    (s.noMoreInput = false →
      OrderBy.reclaim s targetBytes stats =
        Except.ok
          ({ s with sortBuffer := some (sb.spill 0 targetBytes), pool := s.pool.release },
           stats, [Effect.engineSpill 0 targetBytes, Effect.poolRelease]))
    ∧ (s.noMoreInput = true →
      OrderBy.reclaim s targetBytes stats =
        Except.ok
          (s, { stats with numNonReclaimableAttempts := stats.numNonReclaimableAttempts + 1 },
           [Effect.logWarning])
      ∧ ∀ s2 st2 fx, OrderBy.reclaim s targetBytes stats = Except.ok (s2, st2, fx) →
          ∀ n, OrderBy.outputSeq n s2 = OrderBy.outputSeq n s) := by
  have h1b : s.canSpill = true := h1
  constructor
  · intro hIn
    simp [OrderBy.reclaim, OrderByState.canReclaim, h1b, h2, hIn, h3]
  · intro hIn
    have hr : OrderBy.reclaim s targetBytes stats =
        Except.ok
          (s, { stats with numNonReclaimableAttempts := stats.numNonReclaimableAttempts + 1 },
           [Effect.logWarning]) := by
      simp [OrderBy.reclaim, OrderByState.canReclaim, h1b, h2, hIn]
    refine ⟨hr, ?_⟩
    intro s2 st2 fx hEq n
    rw [hr] at hEq
    simp only [Except.ok.injEq, Prod.mk.injEq] at hEq
    rw [← hEq.1]

/-- C1 witness: on a concrete spill-eligible operator still in the input
phase, reclaim spills through the engine and releases excess pool
reservation. -/
theorem orderBy_reclaim_phase_policy_witness :
    sampleInputPhase.canReclaim = true ∧ sampleInputPhase.nonReclaimableSection = false ∧
    sampleInputPhase.noMoreInput = false ∧
    OrderBy.reclaim sampleInputPhase 8 { numNonReclaimableAttempts := 0 } =
      Except.ok
        ({ sampleInputPhase with
             sortBuffer := some (sampleBuffer.spill 0 8)
             pool := sampleInputPhase.pool.release },
         { numNonReclaimableAttempts := 0 },
         [Effect.engineSpill 0 8, Effect.poolRelease]) :=
  ⟨rfl, rfl, rfl,
   (orderBy_reclaim_phase_policy sampleInputPhase sampleBuffer 8
      { numNonReclaimableAttempts := 0 } rfl rfl rfl).1 rfl⟩

/-- C2: the reclaim preconditions are enforced as fatal assertions: a
call on an operator that does not support reclamation, or one inside a
non-reclaimable section, fails with a VELOX_CHECK internal-consistency
failure instead of returning or recovering. -/
theorem orderBy_reclaim_precondition_fatal (s : OrderByState) (targetBytes : Nat)
    (stats : ReclaimStats)
    (h : s.canReclaim = false ∨ s.nonReclaimableSection = true) :
    OrderBy.reclaim s targetBytes stats =
      Except.error (VeloxError.checkFailed
        (if s.canReclaim then nonReclaimableMsg else canReclaimMsg)) := by
  rcases h with h | h
  · simp [OrderBy.reclaim, OrderByState.canReclaim] at *
    simp [h]
  · cases hc : s.canSpill
    · simp [OrderBy.reclaim, OrderByState.canReclaim, hc]
    · simp [OrderBy.reclaim, OrderByState.canReclaim, hc, h]

/-- C2 witness: on a concrete operator built without spill eligibility,
reclaim fails with the canReclaim() check failure. -/
theorem orderBy_reclaim_precondition_fatal_witness :
    ({ sampleInputPhase with canSpill := false } : OrderByState).canReclaim = false ∧
    OrderBy.reclaim { sampleInputPhase with canSpill := false } 1
        { numNonReclaimableAttempts := 0 } =
      Except.error (VeloxError.checkFailed canReclaimMsg) :=
  ⟨rfl,
   orderBy_reclaim_precondition_fatal { sampleInputPhase with canSpill := false } 1
     { numNonReclaimableAttempts := 0 } (Or.inl rfl)⟩

/-- C3: once finished_ is set, every subsequent getOutput call returns
the same end-of-stream signal (null batch) without re-entering the
engine (no engine effect) and with no side effects (state unchanged),
and any number of repeated calls keeps returning it. -/
theorem orderBy_getOutput_finished_idempotent (s : OrderByState)
    (h : s.finished = true) :
    OrderBy.getOutput s = Except.ok (none, s, []) ∧
    ∀ n, OrderBy.outputSeq n s = (List.replicate n none, s) := by
  have hg : OrderBy.getOutput s = Except.ok (none, s, []) := by
    simp [OrderBy.getOutput, h]
  refine ⟨hg, ?_⟩
  intro n
  induction n with
  | zero => simp [OrderBy.outputSeq]
  | succ k ih => simp [OrderBy.outputSeq, hg, ih, List.replicate_succ]

/-- C3 witness: a concrete finished operator answers three successive
getOutput calls with null batches and an unchanged state. -/
theorem orderBy_getOutput_finished_idempotent_witness :
    sampleFinished.finished = true ∧
    OrderBy.getOutput sampleFinished = Except.ok (none, sampleFinished, []) ∧
    OrderBy.outputSeq 3 sampleFinished = (List.replicate 3 none, sampleFinished) :=
  ⟨rfl, (orderBy_getOutput_finished_idempotent sampleFinished rfl).1,
   (orderBy_getOutput_finished_idempotent sampleFinished rfl).2 3⟩

/-- C4: calling getOutput before noMoreInput has been signaled returns
the null result, leaves the state unchanged and does not invoke the
engine. -/
theorem orderBy_getOutput_before_noMoreInput (s : OrderByState)
    (h : s.noMoreInput = false) :
    OrderBy.getOutput s = Except.ok (none, s, []) := by
  simp [OrderBy.getOutput, h]

/-- C4 witness: a concrete operator still in the input phase returns the
null batch from getOutput without any engine call. -/
theorem orderBy_getOutput_before_noMoreInput_witness :
    sampleInputPhase.noMoreInput = false ∧
    OrderBy.getOutput sampleInputPhase = Except.ok (none, sampleInputPhase, []) :=
  ⟨rfl, orderBy_getOutput_before_noMoreInput sampleInputPhase rfl⟩

/-- Helper: the key-resolution loop fails with the constant-key check
message whenever some key resolves to the constant sentinel (given
enough sort orders, as the plan node guarantees). -/
theorem resolveSortingKeys_constant (ks : List ResolvedChannel) (os : List SortOrder)
    (hlen : ks.length ≤ os.length) (hmem : ResolvedChannel.constant ∈ ks) :
    resolveSortingKeys ks os = Except.error (VeloxError.checkFailed constantKeyMsg) := by
  induction ks generalizing os with
  | nil => cases hmem
  | cons k ks ih =>
      cases k with
      | constant => rfl
      | column i =>
          cases os with
          | nil => simp at hlen
          | cons o os =>
              have hmem2 : ResolvedChannel.constant ∈ ks := by
                rcases List.mem_cons.mp hmem with h | h
                · cases h
                · exact h
              have hlen2 : ks.length ≤ os.length := by
                simpa using hlen
              simp [resolveSortingKeys, ih os hlen2 hmem2]

/-- C5: constructing the operator with any sort key that resolves to a
constant column channel fails with the constant-key VELOX_CHECK (the
configuration error of the spec taxonomy), and no engine is constructed
because the constructor returns no state at all. -/
theorem orderBy_construct_constant_key_rejected (pool : MemoryPool) (node : OrderByNode)
    (outputBatchRows spillMemoryThreshold : Nat)
    (h1 : pool.trackUsage = true)
    (h2 : node.sortingKeys.length ≤ node.sortingOrders.length)
    (h3 : ResolvedChannel.constant ∈ node.sortingKeys) :
    OrderBy.construct pool node outputBatchRows spillMemoryThreshold =
      Except.error (VeloxError.checkFailed constantKeyMsg) ∧
    ∀ s, OrderBy.construct pool node outputBatchRows spillMemoryThreshold ≠ Except.ok s := by
  have hres := resolveSortingKeys_constant node.sortingKeys node.sortingOrders h2 h3
  have hc : OrderBy.construct pool node outputBatchRows spillMemoryThreshold =
      Except.error (VeloxError.checkFailed constantKeyMsg) := by
    simp [OrderBy.construct, h1, hres]
  refine ⟨hc, ?_⟩
  intro s hok
  rw [hc] at hok
  cases hok

/-- C5 witness: a concrete node whose single sorting key is the constant
sentinel is rejected by construction. -/
theorem orderBy_construct_constant_key_rejected_witness :
    samplePool.trackUsage = true ∧
    ResolvedChannel.constant ∈ sampleConstNode.sortingKeys ∧
    OrderBy.construct samplePool sampleConstNode 2 16 =
      Except.error (VeloxError.checkFailed constantKeyMsg) :=
  ⟨rfl, List.mem_singleton.mpr rfl,
   (orderBy_construct_constant_key_rejected samplePool sampleConstNode 2 16 rfl
      (by decide) (List.mem_singleton.mpr rfl)).1⟩

/-- C6: for every logical sort order, the derived CompareFlags keeps the
nulls-first and ascending flags of the order, sets the equality-only
flag to false, and fixes the null-handling mode to NoStop; the
derivation fromSortOrderToCompareFlags is a pure function of the sort
order. -/
theorem fromSortOrderToCompareFlags_fields (o : SortOrder) :
    (fromSortOrderToCompareFlags o).nullsFirst = o.nullsFirst ∧
    (fromSortOrderToCompareFlags o).ascending = o.ascending ∧
    (fromSortOrderToCompareFlags o).equalsOnly = false ∧
    (fromSortOrderToCompareFlags o).nullHandlingMode = NullHandlingMode.NoStop :=
  ⟨rfl, rfl, rfl, rfl⟩

/-- C7: abort may be called in any lifecycle state; it resets the engine
(releasing it and every resource it holds) and, being a total function,
cannot throw. -/
theorem orderBy_abort_any_stage_releases_engine (s : OrderByState) :
    OrderBy.abort s = { s with aborted := true, sortBuffer := none } ∧
    (OrderBy.abort s).sortBuffer = none :=
  ⟨rfl, rfl⟩

/-- C8 counterexample: on a concrete spill-eligible operator aborted
while still in the input phase, a subsequent reclaim call passes both
VELOX_CHECKs, takes the spill path and dereferences the reset engine
pointer: the call fails instead of being a safe no-op. -/
theorem orderBy_reclaim_after_abort_counterexample :
    OrderBy.reclaim (OrderBy.abort sampleInputPhase) 64 { numNonReclaimableAttempts := 0 } =
      Except.error VeloxError.nullEngine := rfl

/-- C8 amended: reclaim after abort is a safe no-op only when
noMoreInput had already been signaled: then the call never touches the
destroyed engine, increments the non-reclaimable-attempt counter and
returns; in the input phase it instead dereferences the reset engine
pointer. -/
theorem orderBy_reclaim_after_abort_noop_when_noMoreInput (s : OrderByState)
    (targetBytes : Nat) (stats : ReclaimStats)
    (h1 : s.canReclaim = true) (h2 : s.nonReclaimableSection = false)
    (h3 : s.noMoreInput = true) :
    OrderBy.reclaim (OrderBy.abort s) targetBytes stats =
      Except.ok
        (OrderBy.abort s,
         { stats with numNonReclaimableAttempts := stats.numNonReclaimableAttempts + 1 },
         [Effect.logWarning]) := by
  have h1b : s.canSpill = true := h1
  simp [OrderBy.reclaim, OrderBy.abort, OrderByState.canReclaim, h1b, h2, h3]

/-- C8 amended witness: reclaim after abort on a concrete operator that
had already been signaled noMoreInput is a safe counted no-op. -/
theorem orderBy_reclaim_after_abort_noop_witness :
    sampleAfterInput.canReclaim = true ∧ sampleAfterInput.nonReclaimableSection = false ∧
    sampleAfterInput.noMoreInput = true ∧
    OrderBy.reclaim (OrderBy.abort sampleAfterInput) 64 { numNonReclaimableAttempts := 0 } =
      Except.ok (OrderBy.abort sampleAfterInput, { numNonReclaimableAttempts := 1 },
        [Effect.logWarning]) :=
  ⟨rfl, rfl, rfl,
   orderBy_reclaim_after_abort_noop_when_noMoreInput sampleAfterInput 64
     { numNonReclaimableAttempts := 0 } rfl rfl rfl⟩

/-- C9: the condition under which reclaim refuses to spill is the
noMoreInput flag itself: whenever it is set — regardless of whether any
output batch has actually been produced — reclaim performs no spill,
increments the non-reclaimable-attempt counter and returns with the
operator state (hence the engine) untouched. -/
theorem orderBy_reclaim_refusal_is_noMoreInput_flag (s : OrderByState)
    (targetBytes : Nat) (stats : ReclaimStats)
    (h1 : s.canReclaim = true) (h2 : s.nonReclaimableSection = false)
    (h3 : s.noMoreInput = true) :
    OrderBy.reclaim s targetBytes stats =
      Except.ok
        (s, { stats with numNonReclaimableAttempts := stats.numNonReclaimableAttempts + 1 },
         [Effect.logWarning]) := by
  have h1b : s.canSpill = true := h1
  simp [OrderBy.reclaim, OrderByState.canReclaim, h1b, h2, h3]

/-- C9 witness: a concrete operator that has been signaled noMoreInput
but has produced no output batch yet (finished_ still false, untouched
engine) refuses reclamation with the counter incremented. -/
theorem orderBy_reclaim_refusal_witness :
    sampleAfterInput.canReclaim = true ∧ sampleAfterInput.nonReclaimableSection = false ∧
    sampleAfterInput.noMoreInput = true ∧ sampleAfterInput.finished = false ∧
    OrderBy.reclaim sampleAfterInput 32 { numNonReclaimableAttempts := 0 } =
      Except.ok (sampleAfterInput, { numNonReclaimableAttempts := 1 }, [Effect.logWarning]) :=
  ⟨rfl, rfl, rfl, rfl,
   orderBy_reclaim_refusal_is_noMoreInput_flag sampleAfterInput 32
     { numNonReclaimableAttempts := 0 } rfl rfl rfl⟩

/-- C10: constructing the operator over a pool whose usage tracking is
disabled fails the VELOX_CHECK at entry, and every successfully
constructed operator holds a usage-tracking pool. -/
theorem orderBy_construct_requires_trackUsage (pool : MemoryPool) (node : OrderByNode)
    (outputBatchRows spillMemoryThreshold : Nat) :
    (pool.trackUsage = false →
      OrderBy.construct pool node outputBatchRows spillMemoryThreshold =
        Except.error (VeloxError.checkFailed trackUsageMsg)) ∧
    (∀ s, OrderBy.construct pool node outputBatchRows spillMemoryThreshold = Except.ok s →
      s.pool.trackUsage = true) := by
  constructor
  · intro h
    simp [OrderBy.construct, h]
  · intro s hok
    unfold OrderBy.construct at hok
    by_cases h : pool.trackUsage = true
    · rw [if_pos h] at hok
      cases hres : resolveSortingKeys node.sortingKeys node.sortingOrders with
      | error e => rw [hres] at hok; cases hok
      | ok keys =>
          rw [hres] at hok
          simp only [Except.ok.injEq] at hok
          rw [← hok]
          exact h
    · rw [if_neg h] at hok
      cases hok

/-- C10 witness: construction over a non-tracking pool fails with the
trackUsage check, and the operator constructed over a tracking pool
holds that pool. -/
theorem orderBy_construct_requires_trackUsage_witness :
    sampleBadPool.trackUsage = false ∧
    OrderBy.construct sampleBadPool sampleNode 2 16 =
      Except.error (VeloxError.checkFailed trackUsageMsg) ∧
    OrderBy.construct samplePool sampleNode 2 16 = Except.ok sampleConstructed ∧
    sampleConstructed.pool.trackUsage = true :=
  ⟨rfl,
   (orderBy_construct_requires_trackUsage sampleBadPool sampleNode 2 16).1 rfl,
   rfl,
   (orderBy_construct_requires_trackUsage samplePool sampleNode 2 16).2 sampleConstructed rfl⟩
